import Mathlib

/-!
# Verification of the deliverability & mailbox-verification engine

Shallow embedding of the email deliverability subsystem of the repository:
the SMTP probe client (`src/lib/verify.ts`), the mailbox verifier
(`verifyEmail`), the rate limiter / backoff controller, the deliverability
guard (eligibility filtering, campaign health, soft-bounce queue) and the
weighted-variant picker.  Network collaborators (DNS, sockets, the lead
store) are modelled as explicit inputs; wall-clock time is an explicit
`Int` parameter in milliseconds; JS floating-point arithmetic on rates is
modelled with exact rationals.
-/

namespace BlokVerify

/-! ## SMTP probe client (`smtpVerify` in `src/lib/verify.ts`)

The socket state machine is embedded as a step function over the events the
node socket can deliver: a complete numeric server response (`data`), a
non-numeric / ignored chunk (`junk`), a socket error, a socket timeout and a
close event.  The server's raw response line is abstracted to the decimal
string of its code.  A trace that ends without a resolution is resolved by
the 10-second connection timer (`Connection timed out`), exactly as the
`setTimeout` in the source does. -/

/-- Terminal outcome statuses of one SMTP probe. -/
inductive SmtpStatus where
  | passed
  | failed
  | greylisted
  | blocked
  deriving DecidableEq, Repr

/-- Protocol step of the probe dialogue (the `step` variable of the source). -/
inductive SmtpStep where
  | banner
  | ehlo
  | mailfrom
  | rcptto
  | quit
  deriving DecidableEq, Repr

/-- Events the socket can deliver to the probe's handlers. -/
inductive SmtpEvent where
  /-- a full server response with final-line code `code` -/
  | data (code : Nat)
  /-- a chunk with no parseable final code (continuation line or garbage);
      the `data` handler returns without acting on it -/
  | junk
  /-- the socket `error` event -/
  | err
  /-- the socket `timeout` event -/
  | timeout
  /-- the socket `close` event -/
  | close
  deriving DecidableEq, Repr

/-- The value `smtpVerify` resolves with. -/
structure SmtpResult where
  status : SmtpStatus
  code : Nat
  response : String
  deriving DecidableEq, Repr

/-- Mutable state of one probe: the current protocol step and whether the
promise has already been resolved (the `resolved` flag plus the resolved
value). -/
structure SmtpState where
  step : SmtpStep
  resolved : Option SmtpResult
  deriving DecidableEq, Repr

/-- Initial probe state: at the banner step, unresolved. -/
def smtpInit : SmtpState := { step := SmtpStep.banner, resolved := none }

/-- Classification of the final response code at the `rcptto` step
(the `switch` arm of `smtpVerify`): 250/251 pass, 550–559 fail,
450–459 greylist, 421 blocked, any other ≥ 500 fail, otherwise greylist. -/
def classifyRcpt (code : Nat) : SmtpStatus :=
  if code = 250 ∨ code = 251 then SmtpStatus.passed
  else if 550 ≤ code ∧ code ≤ 559 then SmtpStatus.failed
  else if 450 ≤ code ∧ code ≤ 459 then SmtpStatus.greylisted
  else if code = 421 then SmtpStatus.blocked
  else if 500 ≤ code then SmtpStatus.failed
  else SmtpStatus.greylisted

/-- The `done` helper: resolve once; later calls are ignored. -/
def smtpDone (s : SmtpState) (status : SmtpStatus) (code : Nat) (response : String) :
    SmtpState :=
  match s.resolved with
  | some _ => s
  | none => { s with resolved := some { status := status, code := code, response := response } }

/-- One socket event processed by the probe's handlers. -/
def smtpStepEv (s : SmtpState) (e : SmtpEvent) : SmtpState :=
  match e with
  | SmtpEvent.err => smtpDone s SmtpStatus.blocked 0 "Connection error"
  | SmtpEvent.timeout => smtpDone s SmtpStatus.blocked 0 "Socket timeout"
  | SmtpEvent.close =>
      match s.resolved with
      | some _ => s
      | none => smtpDone s SmtpStatus.blocked 0 "Connection closed unexpectedly"
  | SmtpEvent.junk => s
  | SmtpEvent.data code =>
      match s.step with
      | SmtpStep.banner =>
          if code = 220 then { s with step := SmtpStep.ehlo }
          else smtpDone s SmtpStatus.blocked code (toString code)
      | SmtpStep.ehlo =>
          if code = 250 then { s with step := SmtpStep.mailfrom }
          else smtpDone s SmtpStatus.blocked code (toString code)
      | SmtpStep.mailfrom =>
          if code = 250 then { s with step := SmtpStep.rcptto }
          else smtpDone s SmtpStatus.blocked code (toString code)
      | SmtpStep.rcptto =>
          smtpDone { s with step := SmtpStep.quit } (classifyRcpt code) code (toString code)
      | SmtpStep.quit => s

/-- Process a whole trace of socket events. -/
def smtpProcess (events : List SmtpEvent) : SmtpState :=
  events.foldl smtpStepEv smtpInit

/-- The result `smtpVerify` resolves with on a given event trace: the first
resolution if one occurred, otherwise the 10-second connection timer fires
(`Connection timed out`). -/
def smtpOutcome (events : List SmtpEvent) : SmtpResult :=
  match (smtpProcess events).resolved with
  | some r => r
  | none => { status := SmtpStatus.blocked, code := 0, response := "Connection timed out" }

/-! ## Mailbox verifier (`verifyEmail` in `src/lib/verify.ts`)

String normalisation (`trim().toLowerCase()`), the syntax regex, the three
domain sets and the role-account list are embedded directly.  The network
collaborators (DNS MX lookup, the SMTP probe, and the probe of a random
address used by `detectCatchAll`) are an explicit oracle, and `verifyEmail`
additionally returns the number of network calls it performed (one per MX
lookup, one per SMTP probe). -/

/-- The 45 disposable domains of `DISPOSABLE_DOMAINS`. -/
def DISPOSABLE_DOMAINS : List String :=
  ["tempmail.com", "throwaway.email", "guerrillamail.com", "mailinator.com", "trashmail.com",
   "yopmail.com", "10minutemail.com", "temp-mail.org", "fakeinbox.com", "sharklasers.com",
   "guerrillamailblock.com", "grr.la", "dispostable.com", "mailnesia.com", "maildrop.cc",
   "discard.email", "33mail.com", "getnada.com", "mohmal.com", "emailondeck.com",
   "tempail.com", "tempr.email", "tmail.io", "burnermail.io", "inboxkitten.com",
   "mailsac.com", "anonbox.net", "mintemail.com", "tempmailaddress.com", "tmpmail.net",
   "tempinbox.com", "emailfake.com", "crazymailing.com", "armyspy.com", "dayrep.com",
   "einrot.com", "fleckens.hu", "gustr.com", "jourrapide.com", "rhyta.com", "superrito.com",
   "teleworm.us", "mailcatch.com", "trashmail.me", "mytrashmail.com", "mt2015.com"]

/-- Known catch-all domains (`KNOWN_CATCH_ALL`). -/
def KNOWN_CATCH_ALL : List String :=
  ["yahoo.com", "yahoo.co.uk", "ymail.com", "rocketmail.com"]

/-- Providers that block SMTP RCPT TO verification (`SMTP_BLOCKED_PROVIDERS`). -/
def SMTP_BLOCKED_PROVIDERS : List String :=
  ["gmail.com", "googlemail.com",
   "outlook.com", "hotmail.com", "live.com", "msn.com", "outlook.co.uk",
   "icloud.com", "me.com", "mac.com",
   "aol.com",
   "protonmail.com", "proton.me", "pm.me",
   "zoho.com", "zohomail.com",
   "fastmail.com",
   "tutanota.com", "tuta.com"]

/-- Characters of the regex class for the local part: `[a-zA-Z0-9._%+\-]`. -/
def isLocalChar (c : Char) : Bool :=
  c.isAlpha || c.isDigit || c = '.' || c = '_' || c = '%' || c = '+' || c = '-'

/-- Characters of the regex class for the domain part: `[a-zA-Z0-9.\-]`. -/
def isDomainChar (c : Char) : Bool :=
  c.isAlpha || c.isDigit || c = '.' || c = '-'

/-- Matcher for the anchored suffix `[a-zA-Z0-9.\-]+\.[a-zA-Z]{2,}$` of the
syntax regex: the characters after the `@` must split at some dot into a
nonempty run of domain characters and a TLD of at least two letters. -/
def domainTailMatch (d : List Char) : Bool :=
  (List.range d.length).any fun i =>
    !(d.take i).isEmpty && (d.take i).all isDomainChar &&
      (match d.drop i with
       | '.' :: t => decide (2 ≤ t.length) && t.all Char.isAlpha
       | _ => false)

/-- Matcher for the full regex `^[a-zA-Z0-9._%+\-]+@[a-zA-Z0-9.\-]+\.[a-zA-Z]{2,}$`
(`isValidSyntax`): the accumulator gathers the characters before the first
`@` (the local-part class contains no `@`, so any match splits there). -/
def isValidSyntaxList : List Char → List Char → Bool
  | _, [] => false
  | acc, '@' :: rest => !acc.isEmpty && acc.all isLocalChar && domainTailMatch rest
  | acc, c :: rest => isValidSyntaxList (c :: acc) rest

/-- `isValidSyntax` of the source, on whole strings. -/
def isValidSyntax (s : String) : Bool :=
  isValidSyntaxList [] s.toList

/-- JS `String.prototype.trim`: drop leading and trailing whitespace. -/
def jsTrim (cs : List Char) : List Char :=
  ((cs.dropWhile Char.isWhitespace).reverse.dropWhile Char.isWhitespace).reverse

/-- JS `String.prototype.toLowerCase` (ASCII fragment). -/
def jsLower (cs : List Char) : List Char :=
  cs.map Char.toLower

/-- `email.trim().toLowerCase()` — the normalisation `verifyEmail` applies
before every other check. -/
def normalizeEmail (s : String) : String :=
  String.mk (jsLower (jsTrim s.toList))

/-- JS `String.prototype.split('@')`. -/
def splitOnAt : List Char → List (List Char)
  | [] => [[]]
  | '@' :: rest => [] :: splitOnAt rest
  | c :: rest =>
    match splitOnAt rest with
    | [] => [[c]]
    | p :: ps => (c :: p) :: ps

/-- `isDisposable`: case-insensitive membership in the disposable set. -/
def isDisposable (domain : String) : Bool :=
  DISPOSABLE_DOMAINS.contains (String.mk (jsLower domain.toList))

/-- The role-account local parts of `isRoleAccount`. -/
def roleAccounts : List String :=
  ["admin", "info", "support", "contact", "sales", "hello", "help",
   "billing", "security", "abuse", "postmaster", "webmaster", "noreply",
   "no-reply", "office", "team", "hr", "marketing", "feedback"]

/-- `isRoleAccount`: case-insensitive membership in the role list. -/
def isRoleAccount (localPart : String) : Bool :=
  roleAccounts.contains (String.mk (jsLower localPart.toList))

/-- One MX record as returned by `dns.resolveMx`. -/
structure MxRecord where
  exchange : String
  priority : Nat
  deriving DecidableEq, Repr

/-- Stable insertion of an MX record into a priority-sorted list. -/
def insertByPriority (r : MxRecord) : List MxRecord → List MxRecord
  | [] => [r]
  | x :: xs => if r.priority ≤ x.priority then r :: x :: xs else x :: insertByPriority r xs

/-- The ascending stable sort `records.sort((a, b) => a.priority - b.priority)`
applied by `checkMX`. -/
def sortByPriority : List MxRecord → List MxRecord
  | [] => []
  | x :: xs => insertByPriority x (sortByPriority xs)

/-- The network collaborators of the verifier: the DNS MX lookup, the SMTP
probe for the address under test, and the status of the probe of a random
nonexistent address that `detectCatchAll` sends to `(domain, mxHost)`. -/
structure NetOracle where
  mxRecords : String → List MxRecord
  smtpProbe : String → String → SmtpResult
  catchAllProbe : String → String → SmtpStatus

/-- `checkMX`: resolve MX records; an error or empty answer means no mail
server, otherwise the records sorted ascending by priority. -/
def checkMX (o : NetOracle) (domain : String) : Bool × List MxRecord :=
  let records := o.mxRecords domain
  if records.isEmpty then (false, []) else (true, sortByPriority records)

/-- `detectCatchAll`: probe a random nonexistent address at the domain; the
domain is catch-all when that probe passes. -/
def detectCatchAll (o : NetOracle) (domain : String) (mxHost : String) : Bool :=
  o.catchAllProbe domain mxHost = SmtpStatus.passed

/-- The `smtpCheck` field of the verification details. -/
inductive SmtpCheckTag where
  | passed
  | failed
  | skipped
  | greylisted
  | blocked
  deriving DecidableEq, Repr

/-- Inclusion of probe statuses into `smtpCheck` values. -/
def SmtpStatus.toCheck : SmtpStatus → SmtpCheckTag
  | SmtpStatus.passed => SmtpCheckTag.passed
  | SmtpStatus.failed => SmtpCheckTag.failed
  | SmtpStatus.greylisted => SmtpCheckTag.greylisted
  | SmtpStatus.blocked => SmtpCheckTag.blocked

/-- The `result` union of `VerifyResult`. -/
inductive VerifyResultTag where
  | valid
  | invalid
  | risky
  | catch_all
  | disposable
  | unknown
  deriving DecidableEq, Repr

/-- The `details` object of a `VerificationResult`.  The source's `syntax`
field is named `syntaxOk` here (`syntax` is a Lean keyword). -/
structure VerifyDetails where
  syntaxOk : Bool
  mxExists : Bool
  disposable : Bool
  catchAll : Bool
  roleAccount : Bool
  smtpCheck : SmtpCheckTag
  smtpResponse : Option String
  deriving DecidableEq, Repr

/-- The verdict record `verifyEmail` produces. -/
structure VerificationResult where
  email : String
  result : VerifyResultTag
  details : VerifyDetails
  reason : String
  deriving DecidableEq, Repr

/-- `verifyEmail`: the full verification pipeline, paired with the number of
network calls performed (one per MX lookup, one per SMTP probe — including
the probe hidden in `detectCatchAll`). -/
def verifyEmail (o : NetOracle) (email : String) : VerificationResult × Nat :=
  let trimmed := normalizeEmail email
  let parts := (splitOnAt trimmed.toList).map String.mk
  let localPart := parts.headD ""
  let domainPart := parts.getD 1 ""
  let base0 : VerifyDetails :=
    { syntaxOk := false, mxExists := false, disposable := false,
      catchAll := false, roleAccount := false,
      smtpCheck := SmtpCheckTag.skipped, smtpResponse := none }
  if !(isValidSyntax trimmed) || localPart.isEmpty || domainPart.isEmpty then
    ({ email := trimmed, result := VerifyResultTag.invalid, details := base0,
       reason := "Invalid email format" }, 0)
  else
    let base1 := { base0 with syntaxOk := true }
    if isDisposable domainPart then
      ({ email := trimmed, result := VerifyResultTag.disposable,
         details := { base1 with disposable := true },
         reason := "Disposable email provider: " ++ domainPart }, 0)
    else
      let mx := checkMX o domainPart
      if !mx.1 then
        ({ email := trimmed, result := VerifyResultTag.invalid, details := base1,
           reason := "Domain " ++ domainPart ++ " has no mail server (no MX records)" }, 1)
      else
        let base2 := { base1 with mxExists := true }
        let roleAcc := isRoleAccount localPart
        let base3 := { base2 with roleAccount := roleAcc }
        let mxHost := (mx.2.headD { exchange := "", priority := 0 }).exchange
        if SMTP_BLOCKED_PROVIDERS.contains (String.mk (jsLower domainPart.toList)) then
          -- the source's `roleAccount ? 'risky' : 'risky'` is `risky` in both arms
          ({ email := trimmed, result := VerifyResultTag.risky,
             details := { base3 with smtpCheck := SmtpCheckTag.blocked,
                                     smtpResponse := some (domainPart ++ " blocks SMTP verification") },
             reason := domainPart ++ " blocks SMTP verification — mailbox existence cannot be confirmed. MX records valid." }, 1)
        else if KNOWN_CATCH_ALL.contains (String.mk (jsLower domainPart.toList)) then
          ({ email := trimmed, result := VerifyResultTag.catch_all,
             details := { base3 with catchAll := true, smtpCheck := SmtpCheckTag.skipped,
                                     smtpResponse := some "Known catch-all domain" },
             reason := domainPart ++ " is a known catch-all domain — accepts all addresses" }, 1)
        else
          let smtp := o.smtpProbe trimmed mxHost
          let base4 := { base3 with smtpCheck := smtp.status.toCheck }
          if smtp.status = SmtpStatus.failed then
            ({ email := trimmed, result := VerifyResultTag.invalid,
               details := { base4 with smtpResponse := some smtp.response },
               reason := "Mailbox does not exist — server replied: " ++ smtp.response }, 2)
          else if smtp.status = SmtpStatus.blocked then
            ({ email := trimmed, result := VerifyResultTag.risky,
               details := { base4 with smtpResponse := some smtp.response },
               reason := "SMTP verification blocked by server — mailbox may or may not exist. " ++ smtp.response }, 2)
          else if smtp.status = SmtpStatus.greylisted then
            ({ email := trimmed, result := VerifyResultTag.risky,
               details := { base4 with smtpResponse := some smtp.response },
               reason := "Server greylisted the request (temporary rejection) — try again later. " ++ smtp.response }, 2)
          else
            if detectCatchAll o domainPart mxHost then
              ({ email := trimmed, result := VerifyResultTag.catch_all,
                 details := { base4 with catchAll := true, smtpResponse := some smtp.response },
                 reason := domainPart ++ " is a catch-all server — accepts all addresses, mailbox may not actually exist" }, 3)
            else if roleAcc then
              ({ email := trimmed, result := VerifyResultTag.risky,
                 details := { base4 with smtpResponse := some smtp.response },
                 reason := "SMTP verified but role-based account (" ++ localPart ++ "@) — typically low engagement" }, 3)
            else
              ({ email := trimmed, result := VerifyResultTag.valid,
                 details := { base4 with smtpResponse := some smtp.response },
                 reason := "SMTP verified — mailbox exists and is accepting mail" }, 3)

/-! ## Rate limiter & backoff controller (`checkRateLimit`, `reportSendError`,
`reportSendSuccess` in the deliverability module)

The process-wide singleton is embedded by explicit state passing; the clock
(`Date.now()`) is an explicit `Int` in milliseconds. -/

/-- The `rateLimiter` singleton's fields. -/
structure RateLimiterState where
  windowStart : Int
  count : Nat
  maxPerMinute : Nat
  backoffUntil : Int
  consecutiveErrors : Nat
  deriving DecidableEq, Repr

/-- `checkRateLimit()`: backoff gate, 60-second window reset, per-minute cap,
then count increment.  Returns `(allowed, waitMs)` and the updated state. -/
def checkRateLimit (now : Int) (s : RateLimiterState) :
    (Bool × Int) × RateLimiterState :=
  if now < s.backoffUntil then
    ((false, s.backoffUntil - now), s)
  else
    let s1 := if 60000 ≤ now - s.windowStart
              then { s with windowStart := now, count := 0 } else s
    if s1.maxPerMinute ≤ s1.count then
      ((false, max (60000 - (now - s1.windowStart)) 1000), s1)
    else
      ((true, 0), { s1 with count := s1.count + 1 })

/-- `reportSendError()`: bump `consecutiveErrors` and set
`backoffUntil = now + min(5000 * 2^(consecutiveErrors - 1), 120000)`. -/
def reportSendError (now : Int) (s : RateLimiterState) : RateLimiterState :=
  let ce := s.consecutiveErrors + 1
  { s with consecutiveErrors := ce,
           backoffUntil := now + min (5000 * 2 ^ (ce - 1)) 120000 }

/-- `reportSendSuccess()`: reset `consecutiveErrors` only. -/
def reportSendSuccess (s : RateLimiterState) : RateLimiterState :=
  { s with consecutiveErrors := 0 }

/-! ## Deliverability guard: lead eligibility
(`isLeadEligible`, `filterEligibleLeads`)

The lead store is embedded as the list of lead rows; `findUnique` is
`List.find?` on the id and `findMany where id in ids` is a filter.  Dates
are millisecond timestamps (`Option Int`, `none` = SQL NULL); `Date.now()`
is the explicit parameter `now`. -/

/-- The lead fields selected by the eligibility queries. -/
structure Lead where
  id : String
  email : String
  unsubscribed : Bool
  emailVerified : Bool
  verifyResult : Option String
  bounceCount : Nat
  bounceType : Option String
  complainedAt : Option Int
  lastEngagedAt : Option Int
  engagementScore : Nat
  emailsSent : Nat
  lastEmailAt : Option Int
  deriving DecidableEq, Repr

/-- The `blockedResults` list shared by both eligibility routines. -/
def blockedResults : List String := ["invalid", "disposable"]

/-- `isLeadEligible`: the single-lead check, rules in source order —
not-found, unsubscribed, complaint, hard bounce / 3+ bounces, blocked
verification result, disengagement (5+ sends and `floor(days) > 60`),
24-hour frequency cap.  `Math.floor` of the real-valued day quotient is
`Int.fdiv`; `hoursSinceLastEmail < 24` is the exact millisecond comparison
`now - t < 86400000`. -/
def isLeadEligible (now : Int) (store : List Lead) (leadId : String) :
    Bool × String :=
  match store.find? (fun l => l.id = leadId) with
  | none => (false, "Lead not found")
  | some lead =>
    if lead.unsubscribed then (false, "Unsubscribed")
    else if lead.complainedAt.isSome then (false, "Marked as complaint")
    else if lead.bounceType = some "hard" ∨ 3 ≤ lead.bounceCount then
      (false, "Hard bounce (" ++ toString lead.bounceCount ++ " bounces)")
    else if (match lead.verifyResult with
             | some r => blockedResults.contains r
             | none => false) then
      (false, "Email " ++ lead.verifyResult.getD "")
    else if decide (5 ≤ lead.emailsSent) &&
            (match lead.lastEngagedAt with
             | some t => decide (60 < Int.fdiv (now - t) 86400000)
             | none => false) then
      (false, "Disengaged (" ++
        toString (Int.fdiv (now - lead.lastEngagedAt.getD 0) 86400000) ++
        " days since last activity)")
    else if (match lead.lastEmailAt with
             | some t => decide (now - t < 86400000)
             | none => false) then
      (false, "Frequency cap (24h)")
    else (true, "OK")

/-- The loop body of `filterEligibleLeads`, processing the fetched rows in
order and partitioning them into eligible ids and skipped `(id, reason)`
pairs.  Note the source's branch chain: unlike `isLeadEligible` it has no
frequency-cap branch, and the disengagement test nests the eligible push in
its `else`. -/
def filterGo (now : Int) : List Lead → List String × List (String × String)
  | [] => ([], [])
  | lead :: rest =>
    let acc := filterGo now rest
    if lead.unsubscribed then
      (acc.1, (lead.id, "Unsubscribed") :: acc.2)
    else if lead.complainedAt.isSome then
      (acc.1, (lead.id, "Complaint suppressed") :: acc.2)
    else if lead.bounceType = some "hard" ∨ 3 ≤ lead.bounceCount then
      (acc.1, (lead.id, "Hard bounce") :: acc.2)
    else if (match lead.verifyResult with
             | some r => blockedResults.contains r
             | none => false) then
      (acc.1, (lead.id, "Email " ++ lead.verifyResult.getD "") :: acc.2)
    else if 5 ≤ lead.emailsSent ∧ lead.lastEngagedAt.isSome then
      if 60 < Int.fdiv (now - lead.lastEngagedAt.getD 0) 86400000 then
        (acc.1, (lead.id, "Disengaged 60+ days") :: acc.2)
      else
        (lead.id :: acc.1, acc.2)
    else
      (lead.id :: acc.1, acc.2)

/-- `filterEligibleLeads`: fetch the rows whose id is among the inputs, then
run the partition loop. -/
def filterEligibleLeads (now : Int) (store : List Lead) (leadIds : List String) :
    List String × List (String × String) :=
  filterGo now (store.filter (fun l => leadIds.contains l.id))

/-! ## Campaign health monitor (`checkCampaignHealth`)

The campaign row and the grouped event counts are explicit inputs; the
thresholds are parameters whose defaults mirror the env-var fallbacks.  JS
float rates are exact rationals here.  The triggering reason is abstracted
to a tag for the breached metric (the source formats it into a string);
the returned campaign is the possibly-paused row, making the `update` side
effect explicit. -/

/-- The campaign fields the monitor reads and writes. -/
structure Campaign where
  status : String
  sentTo : Nat
  deriving DecidableEq, Repr

/-- Grouped per-type event counts for one campaign. -/
structure EventCounts where
  sent : Nat
  bounced : Nat
  unsubscribed : Nat
  complained : Nat
  deriving DecidableEq, Repr

/-- Which threshold fired, if any. -/
inductive HealthReason where
  | none
  | bounce
  | unsub
  | complaint
  deriving DecidableEq, Repr

/-- The three computed percentage metrics. -/
structure HealthMetrics where
  bounceRate : ℚ
  unsubRate : ℚ
  complaintRate : ℚ
  deriving DecidableEq, Repr

/-- Default `MAX_BOUNCE_RATE_PERCENT`. -/
def defaultMaxBounceRate : ℚ := 2

/-- Default `MAX_UNSUB_RATE_PERCENT`. -/
def defaultMaxUnsubRate : ℚ := 1/2

/-- Default `MAX_COMPLAINT_RATE_PERCENT`. -/
def defaultMaxComplaintRate : ℚ := 1/10

/-- `checkCampaignHealth`: no-op unless the campaign exists and is
`sending`; rates are percentages of `counts.sent || campaign.sentTo || 1`;
thresholds are checked in the order bounce, unsub, complaint with `>=`;
a breach pauses the campaign. -/
def checkCampaignHealth (camp : Option Campaign) (counts : EventCounts)
    (maxBounceRate maxUnsubRate maxComplaintRate : ℚ) :
    (Bool × HealthReason × HealthMetrics) × Option Campaign :=
  match camp with
  | none => ((false, HealthReason.none, ⟨0, 0, 0⟩), camp)
  | some c =>
    if c.status ≠ "sending" then ((false, HealthReason.none, ⟨0, 0, 0⟩), camp)
    else
      let sent : ℚ := if counts.sent ≠ 0 then (counts.sent : ℚ)
                      else if c.sentTo ≠ 0 then (c.sentTo : ℚ) else 1
      let bounceRate := (counts.bounced : ℚ) / sent * 100
      let unsubRate := (counts.unsubscribed : ℚ) / sent * 100
      let complaintRate := (counts.complained : ℚ) / sent * 100
      let metrics : HealthMetrics := ⟨bounceRate, unsubRate, complaintRate⟩
      if maxBounceRate ≤ bounceRate then
        ((true, HealthReason.bounce, metrics), some { c with status := "paused" })
      else if maxUnsubRate ≤ unsubRate then
        ((true, HealthReason.unsub, metrics), some { c with status := "paused" })
      else if maxComplaintRate ≤ complaintRate then
        ((true, HealthReason.complaint, metrics), some { c with status := "paused" })
      else ((false, HealthReason.none, metrics), camp)

/-! ## Soft-bounce retry queue (`queueSoftBounceRetry`)

The store is embedded restricted to one `(leadId, campaignId)` key: the
lead's bounce fields and the optional queue entry for that key.  Other
keys' rows are untouched by the source for this key, so the restriction is
faithful. -/

/-- The lead fields `queueSoftBounceRetry` updates. -/
structure SBLead where
  bounceType : Option String
  bounceCount : Nat
  lastBounceAt : Option Int
  deriving DecidableEq, Repr

/-- A `softBounceQueue` row for the fixed `(leadId, campaignId)` key. -/
structure SBQueueEntry where
  retries : Nat
  nextRetry : Int
  error : String
  deriving DecidableEq, Repr

/-- The store restricted to one `(leadId, campaignId)` pair. -/
structure SBState where
  lead : SBLead
  entry : Option SBQueueEntry
  deriving DecidableEq, Repr

/-- The `retryDelays` array: 1h, 6h, 24h in milliseconds. -/
def retryDelays : List Int := [3600000, 21600000, 86400000]

/-- `retryDelays[i] || retryDelays[2]`: out-of-range indexing falls back to
the 24h delay (the delays are nonzero, so JS falsiness is only
`undefined`). -/
def retryDelayAt (i : Nat) : Int :=
  match retryDelays.get? i with
  | some d => d
  | none => 86400000

/-- `queueSoftBounceRetry`: if an entry exists with `retries >= 3`, convert
the lead to a hard bounce (increment `bounceCount`, stamp `lastBounceAt`)
and delete the entry; otherwise create the entry with `retries = 0` or
update it with `retries + 1`, setting `nextRetry = now + retryDelays[retries]`
with the 24h fallback. -/
def queueSoftBounceRetry (now : Int) (error : String) (s : SBState) : SBState :=
  match s.entry with
  | some existing =>
    if 3 ≤ existing.retries then
      { lead := { bounceType := some "hard",
                  bounceCount := s.lead.bounceCount + 1,
                  lastBounceAt := some now },
        entry := none }
    else
      let retries := existing.retries + 1
      { s with entry := some { retries := retries,
                               nextRetry := now + retryDelayAt retries,
                               error := error } }
  | none =>
    { s with entry := some { retries := 0,
                             nextRetry := now + retryDelayAt 0,
                             error := error } }

/-! ## Weighted variant selection (`pickVariant`)

The `Math.random()` draw is the explicit parameter `u`; weights and the
draw are exact rationals.  The empty-variants case, where the source would
yield `undefined`, is `none`. -/

/-- One A/B variant. -/
structure MailVariant where
  subject : String
  body : String
  weight : ℚ
  deriving DecidableEq, Repr

/-- The cumulative-subtraction loop of `pickVariant`; `fallback` is the
source's final `return variants[0]`. -/
def pickVariantGo (fallback : Option (String × String)) :
    ℚ → List MailVariant → Option (String × String)
  | _, [] => fallback
  | rand, v :: rest =>
    let rand' := rand - v.weight
    if rand' ≤ 0 then some (v.subject, v.body) else pickVariantGo fallback rand' rest

/-- `pickVariant`: draw `rand = u * totalWeight`, subtract weights in order,
return the first variant driving the remainder to `<= 0`, else the first
variant. -/
def pickVariant (u : ℚ) (variants : List MailVariant) : Option (String × String) :=
  let totalWeight := (variants.map (fun v => v.weight)).sum
  pickVariantGo (variants.head?.map (fun v => (v.subject, v.body)))
    (u * totalWeight) variants

/-- A concrete network oracle on which every check succeeds: one MX record,
an SMTP probe that passes, and a failing catch-all probe. -/
def oracleAllPass : NetOracle :=
  { mxRecords := fun _ => [{ exchange := "mx.example.com", priority := 10 }],
    smtpProbe := fun _ _ => { status := SmtpStatus.passed, code := 250, response := "250 OK" },
    catchAllProbe := fun _ _ => SmtpStatus.failed }

/-! ## Theorems -/

/-- Once `done` has resolved the probe, every later event leaves the
resolution untouched (`done` returns early when `resolved` is set, and no
handler writes `resolved` except through `done`). -/
lemma smtpStepEv_resolved_stable (s : SmtpState) (e : SmtpEvent) (r : SmtpResult)
    (h : s.resolved = some r) : (smtpStepEv s e).resolved = some r := by
  cases e with
  | err => simp [smtpStepEv, smtpDone, h]
  | timeout => simp [smtpStepEv, smtpDone, h]
  | close => simp [smtpStepEv, smtpDone, h]
  | junk => simpa [smtpStepEv] using h
  | data code =>
    cases hs : s.step <;>
      simp [smtpStepEv, hs, smtpDone, h] <;>
      split <;> simp [smtpDone, h]

/-- Stability of a resolution under a whole trace suffix. -/
lemma smtpFoldl_resolved_stable (evs : List SmtpEvent) (s : SmtpState) (r : SmtpResult)
    (h : s.resolved = some r) : (evs.foldl smtpStepEv s).resolved = some r := by
  induction evs generalizing s with
  | nil => simpa using h
  | cons e evs ih =>
    simpa using ih (smtpStepEv s e) (smtpStepEv_resolved_stable s e r h)

/-- Processing a longer trace folds the suffix onto the processed prefix. -/
lemma smtpProcess_append (evs more : List SmtpEvent) :
    smtpProcess (evs ++ more) = more.foldl smtpStepEv (smtpProcess evs) := by
  simp [smtpProcess, List.foldl_append]

/-- C1: In the SMTP probe's rcptto step, for every final response code c the
outcome is classified as: c = 250 or c = 251 gives passed; 550 ≤ c ≤ 559
gives failed; 450 ≤ c ≤ 459 gives greylisted; c = 421 gives blocked; any
other c ≥ 500 gives failed; every remaining c gives greylisted; and given
the scripted response sequence 220, 250, 250, 250 the probe yields passed,
with a 550 at the RCPT step it yields failed, with a 450 it yields
greylisted, and with any non-220 banner it yields blocked. -/
theorem claim_C1 :
    (∀ c : Nat, (c = 250 ∨ c = 251) → classifyRcpt c = SmtpStatus.passed) ∧
    (∀ c : Nat, 550 ≤ c → c ≤ 559 → classifyRcpt c = SmtpStatus.failed) ∧
    (∀ c : Nat, 450 ≤ c → c ≤ 459 → classifyRcpt c = SmtpStatus.greylisted) ∧
    classifyRcpt 421 = SmtpStatus.blocked ∧
    (∀ c : Nat, 500 ≤ c → ¬(550 ≤ c ∧ c ≤ 559) → classifyRcpt c = SmtpStatus.failed) ∧
    (∀ c : Nat, ¬(c = 250 ∨ c = 251) → ¬(450 ≤ c ∧ c ≤ 459) → c ≠ 421 → c < 500 →
      classifyRcpt c = SmtpStatus.greylisted) ∧
    smtpOutcome ([220, 250, 250, 250].map SmtpEvent.data) =
      { status := SmtpStatus.passed, code := 250, response := "250" } ∧
    (smtpOutcome ([220, 250, 250, 550].map SmtpEvent.data)).status = SmtpStatus.failed ∧
    (smtpOutcome ([220, 250, 250, 450].map SmtpEvent.data)).status = SmtpStatus.greylisted ∧
    (∀ b : Nat, b ≠ 220 → ∀ rest : List SmtpEvent,
      (smtpOutcome (SmtpEvent.data b :: rest)).status = SmtpStatus.blocked) := by
  refine ⟨?_, ?_, ?_, by decide, ?_, ?_, by decide, by decide, by decide, ?_⟩
  · intro c h
    unfold classifyRcpt
    split_ifs <;> first | rfl | omega
  · intro c h1 h2
    unfold classifyRcpt
    split_ifs <;> first | rfl | omega
  · intro c h1 h2
    unfold classifyRcpt
    split_ifs <;> first | rfl | omega
  · intro c h1 h2
    unfold classifyRcpt
    split_ifs <;> first | rfl | omega
  · intro c h1 h2 h3 h4
    unfold classifyRcpt
    split_ifs <;> first | rfl | omega
  · intro b hb rest
    have hstep : (smtpStepEv smtpInit (SmtpEvent.data b)).resolved =
        some { status := SmtpStatus.blocked, code := b, response := toString b } := by
      simp [smtpStepEv, smtpInit, smtpDone, hb]
    have hres := smtpFoldl_resolved_stable rest (smtpStepEv smtpInit (SmtpEvent.data b)) _ hstep
    have hproc : smtpProcess (SmtpEvent.data b :: rest) =
        rest.foldl smtpStepEv (smtpStepEv smtpInit (SmtpEvent.data b)) := by
      simp [smtpProcess]
    simp [smtpOutcome, hproc, hres]

/-- Witness for C1 at concrete codes and a concrete non-220 banner trace. -/
theorem claim_C1_witness :
    classifyRcpt 250 = SmtpStatus.passed ∧
    classifyRcpt 554 = SmtpStatus.failed ∧
    classifyRcpt 452 = SmtpStatus.greylisted ∧
    classifyRcpt 530 = SmtpStatus.failed ∧
    classifyRcpt 300 = SmtpStatus.greylisted ∧
    (smtpOutcome (SmtpEvent.data 554 :: [SmtpEvent.close])).status = SmtpStatus.blocked := by
  refine ⟨claim_C1.1 250 (Or.inl rfl),
          claim_C1.2.1 554 (by decide) (by decide),
          claim_C1.2.2.1 452 (by decide) (by decide),
          claim_C1.2.2.2.2.1 530 (by decide) (by decide),
          claim_C1.2.2.2.2.2.1 300 (by decide) (by decide) (by decide) (by decide),
          claim_C1.2.2.2.2.2.2.2.2.2 554 (by decide) [SmtpEvent.close]⟩

/-- C4: the SMTP probe is total over its result type — on every socket event
trace it resolves exactly once (an established resolution is never changed
by later events, and an unresolved trace is resolved by the connection
timer), and each of connection timeout, socket error, and unexpected
premature close resolves to status blocked with a descriptive reason. -/
theorem claim_C4 :
    (∀ evs more : List SmtpEvent, ∀ r : SmtpResult,
      (smtpProcess evs).resolved = some r →
      (smtpProcess (evs ++ more)).resolved = some r ∧ smtpOutcome (evs ++ more) = r) ∧
    (∀ evs : List SmtpEvent, (smtpProcess evs).resolved = none →
      smtpOutcome (evs ++ [SmtpEvent.err]) =
        { status := SmtpStatus.blocked, code := 0, response := "Connection error" } ∧
      smtpOutcome (evs ++ [SmtpEvent.timeout]) =
        { status := SmtpStatus.blocked, code := 0, response := "Socket timeout" } ∧
      smtpOutcome (evs ++ [SmtpEvent.close]) =
        { status := SmtpStatus.blocked, code := 0, response := "Connection closed unexpectedly" } ∧
      smtpOutcome evs =
        { status := SmtpStatus.blocked, code := 0, response := "Connection timed out" }) := by
  constructor
  · intro evs more r h
    have hres : (smtpProcess (evs ++ more)).resolved = some r := by
      rw [smtpProcess_append]
      exact smtpFoldl_resolved_stable more (smtpProcess evs) r h
    exact ⟨hres, by simp [smtpOutcome, hres]⟩
  · intro evs h
    refine ⟨?_, ?_, ?_, by simp [smtpOutcome, h]⟩ <;>
      rw [smtpOutcome, smtpProcess_append] <;>
      simp [smtpStepEv, smtpDone, h]

/-- Witness for C4: a resolved trace is stable under more events, and the
empty trace (a silent server) times out to blocked. -/
theorem claim_C4_witness :
    smtpOutcome ([SmtpEvent.err] ++ [SmtpEvent.data 220]) =
      { status := SmtpStatus.blocked, code := 0, response := "Connection error" } ∧
    smtpOutcome ([] ++ [SmtpEvent.err]) =
      { status := SmtpStatus.blocked, code := 0, response := "Connection error" } ∧
    smtpOutcome ([] : List SmtpEvent) =
      { status := SmtpStatus.blocked, code := 0, response := "Connection timed out" } := by
  refine ⟨(claim_C4.1 [SmtpEvent.err] [SmtpEvent.data 220]
            { status := SmtpStatus.blocked, code := 0, response := "Connection error" }
            (by decide)).2,
          (claim_C4.2 [] (by decide)).1,
          (claim_C4.2 [] (by decide)).2.2.2⟩

/-- C6: `checkRateLimit` rejects with the remaining wait whenever
`now < backoffUntil`; otherwise it resets count to 0 and windowStart to now
when at least 60 seconds have elapsed since windowStart; rejects with wait
equal to the remainder of the window (floored at 1000ms) when
`count >= maxPerMinute`; and otherwise increments count and allows — so with
`maxPerMinute = 2` three calls within one window yield allowed true, true,
false; and `reportSendError` increments `consecutiveErrors` and sets
`backoffUntil = now + min(5000 * 2^(consecutiveErrors - 1), 120000)`. -/
theorem claim_C6 :
    (∀ (now : Int) (s : RateLimiterState), now < s.backoffUntil →
      checkRateLimit now s = ((false, s.backoffUntil - now), s)) ∧
    (∀ (now : Int) (s : RateLimiterState), ¬ now < s.backoffUntil →
      60000 ≤ now - s.windowStart →
      checkRateLimit now s =
        checkRateLimit now { s with windowStart := now, count := 0 }) ∧
    (∀ (now : Int) (s : RateLimiterState), ¬ now < s.backoffUntil →
      ¬ 60000 ≤ now - s.windowStart → s.maxPerMinute ≤ s.count →
      checkRateLimit now s =
        ((false, max (60000 - (now - s.windowStart)) 1000), s)) ∧
    (∀ (now : Int) (s : RateLimiterState), ¬ now < s.backoffUntil →
      ¬ 60000 ≤ now - s.windowStart → s.count < s.maxPerMinute →
      checkRateLimit now s = ((true, 0), { s with count := s.count + 1 })) ∧
    (∀ (ws b t1 t2 t3 : Int) (ce : Nat),
      b ≤ t1 → t1 ≤ t2 → t2 ≤ t3 → ws ≤ t1 → t3 - ws < 60000 →
      checkRateLimit t1 ⟨ws, 0, 2, b, ce⟩ = ((true, 0), ⟨ws, 1, 2, b, ce⟩) ∧
      checkRateLimit t2 ⟨ws, 1, 2, b, ce⟩ = ((true, 0), ⟨ws, 2, 2, b, ce⟩) ∧
      (checkRateLimit t3 ⟨ws, 2, 2, b, ce⟩).1.1 = false) ∧
    (∀ (now : Int) (s : RateLimiterState),
      reportSendError now s =
        { s with consecutiveErrors := s.consecutiveErrors + 1,
                 backoffUntil := now + min (5000 * 2 ^ (s.consecutiveErrors + 1 - 1)) 120000 }) := by
  refine ⟨?_, ?_, ?_, ?_, ?_, ?_⟩
  · intro now s h
    unfold checkRateLimit
    rw [if_pos h]
  · intro now s h1 h2
    unfold checkRateLimit
    split_ifs <;> first | rfl | omega
  · intro now s h1 h2 h3
    simp [checkRateLimit, h1, h2, h3]
  · intro now s h1 h2 h3
    simp [checkRateLimit, h1, h2, Nat.not_le.mpr h3]
  · intro ws b t1 t2 t3 ce h1 h2 h3 h4 h5
    refine ⟨?_, ?_, ?_⟩ <;>
      · unfold checkRateLimit
        split_ifs <;> (try rfl) <;> simp_all <;> omega
  · intro now s
    rfl

/-- Witness for C6 at concrete times and states. -/
theorem claim_C6_witness :
    checkRateLimit 0 ⟨0, 0, 2, 7, 0⟩ = ((false, 7), ⟨0, 0, 2, 7, 0⟩) ∧
    checkRateLimit 70000 ⟨0, 5, 2, 0, 0⟩ =
      checkRateLimit 70000 ⟨70000, 0, 2, 0, 0⟩ ∧
    checkRateLimit 500 ⟨0, 2, 2, 0, 0⟩ = ((false, 59500), ⟨0, 2, 2, 0, 0⟩) ∧
    checkRateLimit 500 ⟨0, 1, 2, 0, 0⟩ = ((true, 0), ⟨0, 2, 2, 0, 0⟩) ∧
    checkRateLimit 10 ⟨0, 0, 2, 0, 3⟩ = ((true, 0), ⟨0, 1, 2, 0, 3⟩) ∧
    (checkRateLimit 30 ⟨0, 2, 2, 0, 3⟩).1.1 = false ∧
    reportSendError 100 ⟨0, 0, 2, 0, 2⟩ =
      { windowStart := 0, count := 0, maxPerMinute := 2,
        backoffUntil := 100 + min (5000 * 2 ^ 2) 120000, consecutiveErrors := 3 } := by
  refine ⟨claim_C6.1 0 ⟨0, 0, 2, 7, 0⟩ (by decide),
          claim_C6.2.1 70000 ⟨0, 5, 2, 0, 0⟩ (by decide) (by decide),
          ?_,
          claim_C6.2.2.2.1 500 ⟨0, 1, 2, 0, 0⟩ (by decide) (by decide) (by decide),
          (claim_C6.2.2.2.2.1 0 0 10 20 30 3 (by decide) (by decide) (by decide)
            (by decide) (by decide)).1,
          (claim_C6.2.2.2.2.1 0 0 10 20 30 3 (by decide) (by decide) (by decide)
            (by decide) (by decide)).2.2,
          claim_C6.2.2.2.2.2 100 ⟨0, 0, 2, 0, 2⟩⟩
  have h := claim_C6.2.2.1 500 ⟨0, 2, 2, 0, 0⟩ (by decide) (by decide) (by decide)
  simpa using h

/-- C9: `reportSendSuccess` sets `consecutiveErrors` to 0 and modifies no
other rate-limiter field — `windowStart`, `count`, `maxPerMinute` and in
particular an already-set `backoffUntil` are unchanged, so a pending backoff
still blocks `checkRateLimit` after a reported success. -/
theorem claim_C9 :
    (∀ s : RateLimiterState,
      reportSendSuccess s = { s with consecutiveErrors := 0 } ∧
      (reportSendSuccess s).windowStart = s.windowStart ∧
      (reportSendSuccess s).count = s.count ∧
      (reportSendSuccess s).maxPerMinute = s.maxPerMinute ∧
      (reportSendSuccess s).backoffUntil = s.backoffUntil) ∧
    (∀ (s : RateLimiterState) (now : Int), now < s.backoffUntil →
      checkRateLimit now (reportSendSuccess s) =
        ((false, s.backoffUntil - now), reportSendSuccess s)) := by
  constructor
  · intro s
    exact ⟨rfl, rfl, rfl, rfl, rfl⟩
  · intro s now h
    unfold checkRateLimit reportSendSuccess
    simp only []
    rw [if_pos (by simpa [reportSendSuccess] using h)]

/-- Witness for C9: a pending backoff still rejects after a success. -/
theorem claim_C9_witness :
    reportSendSuccess ⟨3, 4, 5, 600, 9⟩ = ⟨3, 4, 5, 600, 0⟩ ∧
    checkRateLimit 10 (reportSendSuccess ⟨3, 4, 5, 600, 9⟩) =
      ((false, 590), reportSendSuccess ⟨3, 4, 5, 600, 9⟩) := by
  refine ⟨(claim_C9.1 ⟨3, 4, 5, 600, 9⟩).1, ?_⟩
  have h := claim_C9.2 ⟨3, 4, 5, 600, 9⟩ 10 (by decide)
  simpa using h

/-- C5 (amended): for every email string whose trimmed, lowercased form
fails the syntax regex, `verifyEmail` returns result invalid with
`details.syntax = false`, reason "Invalid email format", and performs no
network calls.  (The claim as stated quantifies over the raw string; the
code normalises first, see the counterexample.) -/
theorem claim_C5 (o : NetOracle) (e : String)
    (h : isValidSyntax (normalizeEmail e) = false) :
    (verifyEmail o e).1.result = VerifyResultTag.invalid ∧
    (verifyEmail o e).1.details.syntaxOk = false ∧
    (verifyEmail o e).1.reason = "Invalid email format" ∧
    (verifyEmail o e).2 = 0 := by
  simp [verifyEmail, h]

/-- Witness for C5 at a concrete syntactically invalid address. -/
theorem claim_C5_witness :
    isValidSyntax (normalizeEmail "not-an-email") = false ∧
    (verifyEmail oracleAllPass "not-an-email").1.result = VerifyResultTag.invalid ∧
    (verifyEmail oracleAllPass "not-an-email").2 = 0 := by
  have h := claim_C5 oracleAllPass "not-an-email" (by decide)
  exact ⟨by decide, h.1, h.2.2.2⟩

/-- Counterexample to C5 as stated: the raw string "a@b.co " (trailing
space) fails the syntax regex, yet `verifyEmail` trims it first, proceeds
to the MX lookup and SMTP probes (3 network calls) and returns valid. -/
theorem claim_C5_cex :
    isValidSyntax "a@b.co " = false ∧
    (verifyEmail oracleAllPass "a@b.co ").1.result = VerifyResultTag.valid ∧
    (verifyEmail oracleAllPass "a@b.co ").2 = 3 := by
  refine ⟨by decide, by decide, by decide⟩

/-- C8: for every variant list whose first element has positive weight and
whose other elements all have zero weight — in particular weights
`[1, 0, 0]` — `pickVariant` returns the first variant for every draw
`u ∈ [0, 1)` of the random source (so the draw `u * totalWeight` ranges over
`[0, totalWeight)`), hence zero-weight alternatives are never selected when
the positive-weight option exists; and with degenerate all-zero weights the
first variant is returned. -/
theorem claim_C8 :
    (∀ (v0 : MailVariant) (rest : List MailVariant) (u : ℚ),
      0 < v0.weight → (∀ v ∈ rest, v.weight = 0) → 0 ≤ u → u < 1 →
      pickVariant u (v0 :: rest) = some (v0.subject, v0.body)) ∧
    (∀ (v0 : MailVariant) (rest : List MailVariant) (u : ℚ),
      (∀ v ∈ v0 :: rest, v.weight = 0) →
      pickVariant u (v0 :: rest) = some (v0.subject, v0.body)) := by
  constructor
  · intro v0 rest u hw hz hu0 hu1
    have hsum : ((v0 :: rest).map (fun v => v.weight)).sum = v0.weight := by
      simp only [List.map_cons, List.sum_cons]
      have : (rest.map (fun v => v.weight)).sum = 0 :=
        List.sum_eq_zero (by intro x hx
                             obtain ⟨v, hv, rfl⟩ := List.mem_map.mp hx
                             exact hz v hv)
      rw [this, add_zero]
    have hrand : u * v0.weight - v0.weight ≤ 0 := by nlinarith
    simp only [pickVariant, pickVariantGo, hsum]
    rw [if_pos hrand]
  · intro v0 rest u hz
    have hsum : ((v0 :: rest).map (fun v => v.weight)).sum = 0 :=
      List.sum_eq_zero (by intro x hx
                           obtain ⟨v, hv, rfl⟩ := List.mem_map.mp hx
                           exact hz v hv)
    have hw0 : v0.weight = 0 := hz v0 (List.mem_cons_self v0 rest)
    simp only [pickVariant, pickVariantGo, hsum, mul_zero, hw0, sub_zero]
    rw [if_pos le_rfl]

/-- Witness for C8 with weights `[1, 0, 0]` at draw `1/2`, and an all-zero
list at draw `3/4`. -/
theorem claim_C8_witness :
    pickVariant (1/2) [⟨"s1", "b1", 1⟩, ⟨"s2", "b2", 0⟩, ⟨"s3", "b3", 0⟩] =
      some ("s1", "b1") ∧
    pickVariant (3/4) [⟨"z1", "c1", 0⟩, ⟨"z2", "c2", 0⟩] = some ("z1", "c1") := by
  constructor
  · exact claim_C8.1 ⟨"s1", "b1", 1⟩ [⟨"s2", "b2", 0⟩, ⟨"s3", "b3", 0⟩] (1/2)
      (by norm_num) (by intro v hv; simp at hv; rcases hv with h | h <;> simp [h])
      (by norm_num) (by norm_num)
  · exact claim_C8.2 ⟨"z1", "c1", 0⟩ [⟨"z2", "c2", 0⟩] (3/4)
      (by intro v hv; simp at hv; rcases hv with h | h <;> simp [h])

/-- C7: for a campaign in status sending, `checkCampaignHealth` computes
bounce, unsub and complaint rates as percentages of the sent event count
(falling back to the stored `sentTo`, then 1), compares them in the order
bounce, unsub, complaint against the thresholds (defaults 2, 0.5, 0.1),
pauses the campaign and reports the triggering reason on the first
threshold breached, and changes no state when none is breached; a campaign
not in status sending is untouched; and sent = 100 with bounced = 3
triggers the pause at the default thresholds. -/
theorem claim_C7 :
    (∀ (c : Campaign) (counts : EventCounts) (mb mu mc : ℚ) (sent br ur cr : ℚ),
      c.status = "sending" →
      sent = (if counts.sent ≠ 0 then (counts.sent : ℚ)
              else if c.sentTo ≠ 0 then (c.sentTo : ℚ) else 1) →
      br = (counts.bounced : ℚ) / sent * 100 →
      ur = (counts.unsubscribed : ℚ) / sent * 100 →
      cr = (counts.complained : ℚ) / sent * 100 →
      (mb ≤ br →
        checkCampaignHealth (some c) counts mb mu mc =
          ((true, HealthReason.bounce, ⟨br, ur, cr⟩), some { c with status := "paused" })) ∧
      (br < mb → mu ≤ ur →
        checkCampaignHealth (some c) counts mb mu mc =
          ((true, HealthReason.unsub, ⟨br, ur, cr⟩), some { c with status := "paused" })) ∧
      (br < mb → ur < mu → mc ≤ cr →
        checkCampaignHealth (some c) counts mb mu mc =
          ((true, HealthReason.complaint, ⟨br, ur, cr⟩), some { c with status := "paused" })) ∧
      (br < mb → ur < mu → cr < mc →
        checkCampaignHealth (some c) counts mb mu mc =
          ((false, HealthReason.none, ⟨br, ur, cr⟩), some c))) ∧
    (∀ (c : Campaign) (counts : EventCounts) (mb mu mc : ℚ), c.status ≠ "sending" →
      checkCampaignHealth (some c) counts mb mu mc =
        ((false, HealthReason.none, ⟨0, 0, 0⟩), some c)) ∧
    checkCampaignHealth (some ⟨"sending", 0⟩) ⟨100, 3, 0, 0⟩
        defaultMaxBounceRate defaultMaxUnsubRate defaultMaxComplaintRate =
      ((true, HealthReason.bounce, ⟨3, 0, 0⟩), some ⟨"paused", 0⟩) := by
  refine ⟨?_, ?_, by
    simp only [checkCampaignHealth, defaultMaxBounceRate, defaultMaxUnsubRate,
      defaultMaxComplaintRate]
    norm_num⟩
  · intro c counts mb mu mc sent br ur cr hst hsent hbr hur hcr
    subst hsent hbr hur hcr
    have hsend : ¬ c.status ≠ "sending" := by simp [hst]
    refine ⟨?_, ?_, ?_, ?_⟩
    · intro h1
      simp only [checkCampaignHealth]
      rw [if_neg hsend, if_pos h1]
    · intro h1 h2
      simp only [checkCampaignHealth]
      rw [if_neg hsend, if_neg (not_le.mpr h1), if_pos h2]
    · intro h1 h2 h3
      simp only [checkCampaignHealth]
      rw [if_neg hsend, if_neg (not_le.mpr h1), if_neg (not_le.mpr h2), if_pos h3]
    · intro h1 h2 h3
      simp only [checkCampaignHealth]
      rw [if_neg hsend, if_neg (not_le.mpr h1), if_neg (not_le.mpr h2),
          if_neg (not_le.mpr h3)]
  · intro c counts mb mu mc hst
    simp [checkCampaignHealth, hst]

/-- Witness for C7: each threshold-ordering branch at concrete metrics, and
a non-sending campaign left unchanged. -/
theorem claim_C7_witness :
    checkCampaignHealth (some ⟨"sending", 0⟩) ⟨100, 3, 0, 0⟩ 2 (1/2) (1/10) =
      ((true, HealthReason.bounce, ⟨3, 0, 0⟩), some ⟨"paused", 0⟩) ∧
    checkCampaignHealth (some ⟨"sending", 0⟩) ⟨100, 1, 1, 0⟩ 2 (1/2) (1/10) =
      ((true, HealthReason.unsub, ⟨1, 1, 0⟩), some ⟨"paused", 0⟩) ∧
    checkCampaignHealth (some ⟨"sending", 0⟩) ⟨100, 1, 0, 1⟩ 2 (1/2) (1/10) =
      ((true, HealthReason.complaint, ⟨1, 0, 1⟩), some ⟨"paused", 0⟩) ∧
    checkCampaignHealth (some ⟨"sending", 0⟩) ⟨100, 1, 0, 0⟩ 2 (1/2) (1/10) =
      ((false, HealthReason.none, ⟨1, 0, 0⟩), some ⟨"sending", 0⟩) ∧
    checkCampaignHealth (some ⟨"draft", 7⟩) ⟨100, 50, 50, 50⟩ 2 (1/2) (1/10) =
      ((false, HealthReason.none, ⟨0, 0, 0⟩), some ⟨"draft", 7⟩) := by
  refine ⟨((claim_C7.1 ⟨"sending", 0⟩ ⟨100, 3, 0, 0⟩ 2 (1/2) (1/10) 100 3 0 0
            rfl (by norm_num) (by norm_num) (by norm_num) (by norm_num)).1 (by norm_num)),
          ((claim_C7.1 ⟨"sending", 0⟩ ⟨100, 1, 1, 0⟩ 2 (1/2) (1/10) 100 1 1 0
            rfl (by norm_num) (by norm_num) (by norm_num) (by norm_num)).2.1
            (by norm_num) (by norm_num)),
          ((claim_C7.1 ⟨"sending", 0⟩ ⟨100, 1, 0, 1⟩ 2 (1/2) (1/10) 100 1 0 1
            rfl (by norm_num) (by norm_num) (by norm_num) (by norm_num)).2.2.1
            (by norm_num) (by norm_num) (by norm_num)),
          ((claim_C7.1 ⟨"sending", 0⟩ ⟨100, 1, 0, 0⟩ 2 (1/2) (1/10) 100 1 0 0
            rfl (by norm_num) (by norm_num) (by norm_num) (by norm_num)).2.2.2
            (by norm_num) (by norm_num) (by norm_num)),
          (claim_C7.2.1 ⟨"draft", 7⟩ ⟨100, 50, 50, 50⟩ 2 (1/2) (1/10) (by decide))⟩

/-- C2 (amended): for a fixed `(leadId, campaignId)` pair, a report finding
no entry creates one with `retries = 0`; a report finding an entry with
`retries < 3` updates it to `retries + 1`; in both cases
`nextRetry = now + delay[r]` where `r` is the stored (post-increment) retry
count, indexed into `delay = [1h, 6h, 24h]` and clamped to the 24h value
when out of range; a report finding an entry with `retries >= 3` marks the
lead hard-bounced, increments `bounceCount`, stamps `lastBounceAt` and
removes the entry — hence starting from no entry, reports 1–4 store
`retries = 0, 1, 2, 3` with delays 1h, 6h, 24h, 24h and only the 5th
identical report converts the lead. -/
theorem claim_C2 :
    (∀ (now : Int) (err : String) (s : SBState), s.entry = none →
      queueSoftBounceRetry now err s =
        { s with entry := some ⟨0, now + retryDelayAt 0, err⟩ }) ∧
    (∀ (now : Int) (err : String) (s : SBState) (ex : SBQueueEntry),
      s.entry = some ex → ex.retries < 3 →
      queueSoftBounceRetry now err s =
        { s with entry := some ⟨ex.retries + 1, now + retryDelayAt (ex.retries + 1), err⟩ }) ∧
    (∀ (now : Int) (err : String) (s : SBState) (ex : SBQueueEntry),
      s.entry = some ex → 3 ≤ ex.retries →
      queueSoftBounceRetry now err s =
        ⟨⟨some "hard", s.lead.bounceCount + 1, some now⟩, none⟩) ∧
    (retryDelayAt 0 = 3600000 ∧ retryDelayAt 1 = 21600000 ∧
      retryDelayAt 2 = 86400000 ∧ ∀ i, 3 ≤ i → retryDelayAt i = 86400000) ∧
    (∀ (ld : SBLead) (t : Int) (e : String),
      queueSoftBounceRetry t e ⟨ld, none⟩ = ⟨ld, some ⟨0, t + 3600000, e⟩⟩ ∧
      (∀ (n : Int) (e0 : String),
        queueSoftBounceRetry t e ⟨ld, some ⟨0, n, e0⟩⟩ = ⟨ld, some ⟨1, t + 21600000, e⟩⟩ ∧
        queueSoftBounceRetry t e ⟨ld, some ⟨1, n, e0⟩⟩ = ⟨ld, some ⟨2, t + 86400000, e⟩⟩ ∧
        queueSoftBounceRetry t e ⟨ld, some ⟨2, n, e0⟩⟩ = ⟨ld, some ⟨3, t + 86400000, e⟩⟩ ∧
        queueSoftBounceRetry t e ⟨ld, some ⟨3, n, e0⟩⟩ =
          ⟨⟨some "hard", ld.bounceCount + 1, some t⟩, none⟩)) := by
  refine ⟨?_, ?_, ?_, ⟨rfl, rfl, rfl, ?_⟩, ?_⟩
  · intro now err s h
    simp [queueSoftBounceRetry, h]
  · intro now err s ex h hlt
    simp [queueSoftBounceRetry, h, Nat.not_le.mpr hlt]
  · intro now err s ex h hge
    simp [queueSoftBounceRetry, h, hge]
  · intro i hi
    unfold retryDelayAt retryDelays
    match i, hi with
    | (n + 3), _ => rfl
  · intro ld t e
    refine ⟨by simp [queueSoftBounceRetry, retryDelayAt, retryDelays], ?_⟩
    intro n e0
    refine ⟨?_, ?_, ?_, ?_⟩ <;> simp [queueSoftBounceRetry, retryDelayAt, retryDelays]

/-- Witness for C2 at a concrete pair state: create, update, convert. -/
theorem claim_C2_witness :
    queueSoftBounceRetry 10 "tmp" ⟨⟨none, 0, none⟩, none⟩ =
      ⟨⟨none, 0, none⟩, some ⟨0, 10 + retryDelayAt 0, "tmp"⟩⟩ ∧
    queueSoftBounceRetry 20 "tmp" ⟨⟨none, 0, none⟩, some ⟨1, 5, "old"⟩⟩ =
      ⟨⟨none, 0, none⟩, some ⟨2, 20 + retryDelayAt 2, "tmp"⟩⟩ ∧
    queueSoftBounceRetry 30 "tmp" ⟨⟨none, 2, none⟩, some ⟨3, 5, "old"⟩⟩ =
      ⟨⟨some "hard", 3, some 30⟩, none⟩ ∧
    retryDelayAt 7 = 86400000 := by
  refine ⟨claim_C2.1 10 "tmp" ⟨⟨none, 0, none⟩, none⟩ rfl,
          claim_C2.2.1 20 "tmp" ⟨⟨none, 0, none⟩, some ⟨1, 5, "old"⟩⟩ ⟨1, 5, "old"⟩
            rfl (by decide),
          claim_C2.2.2.1 30 "tmp" ⟨⟨none, 2, none⟩, some ⟨3, 5, "old"⟩⟩ ⟨3, 5, "old"⟩
            rfl (by decide),
          claim_C2.2.2.2.1.2.2.2 7 (by decide)⟩

/-- Counterexample to C2 as stated: after exactly 3 soft-bounce reports from
a fresh state the lead is not yet hard-bounced and the queue entry still
exists (with `retries = 2`), and the 4th identical report still changes the
queue entry (to `retries = 3`). -/
theorem claim_C2_cex :
    (queueSoftBounceRetry 0 "e" (queueSoftBounceRetry 0 "e"
        (queueSoftBounceRetry 0 "e" ⟨⟨none, 0, none⟩, none⟩))).lead.bounceType ≠
      some "hard" ∧
    (queueSoftBounceRetry 0 "e" (queueSoftBounceRetry 0 "e"
        (queueSoftBounceRetry 0 "e" ⟨⟨none, 0, none⟩, none⟩))).entry =
      some ⟨2, 86400000, "e"⟩ ∧
    (queueSoftBounceRetry 0 "e" (queueSoftBounceRetry 0 "e" (queueSoftBounceRetry 0 "e"
        (queueSoftBounceRetry 0 "e" ⟨⟨none, 0, none⟩, none⟩)))).entry =
      some ⟨3, 86400000, "e"⟩ := by
  refine ⟨by decide, by decide, by decide⟩

/-- Each fetched row is pushed by the filter loop onto exactly one of the
two output lists: the skipped list with some reason, or the eligible list. -/
lemma filterGo_cons_shape (now : Int) (l : Lead) (rest : List Lead) :
    (∃ r, filterGo now (l :: rest) =
       ((filterGo now rest).1, (l.id, r) :: (filterGo now rest).2)) ∨
    filterGo now (l :: rest) =
      (l.id :: (filterGo now rest).1, (filterGo now rest).2) := by
  simp only [filterGo]
  split_ifs <;> first | (left; exact ⟨_, rfl⟩) | (right; rfl)

/-- The eligible ids together with the skipped ids are a permutation of the
ids of the processed rows. -/
lemma filterGo_perm (now : Int) (leads : List Lead) :
    ((filterGo now leads).1 ++ (filterGo now leads).2.map Prod.fst).Perm
      (leads.map Lead.id) := by
  induction leads with
  | nil => simp [filterGo]
  | cons l rest ih =>
    rcases filterGo_cons_shape now l rest with ⟨r, hs⟩ | hs <;> rw [hs]
    · simpa using (List.perm_middle.trans (ih.cons l.id))
    · simpa using ih.cons l.id

/-- Membership in either output of the filter loop is existence of a
processed row with that id. -/
lemma filterGo_mem (now : Int) (leads : List Lead) (x : String) :
    (x ∈ (filterGo now leads).1 ∨ ∃ r, (x, r) ∈ (filterGo now leads).2) ↔
      ∃ l ∈ leads, l.id = x := by
  have hperm := (filterGo_perm now leads).mem_iff (a := x)
  constructor
  · intro h
    have hx : x ∈ (filterGo now leads).1 ++ (filterGo now leads).2.map Prod.fst := by
      rcases h with h | ⟨r, hr⟩
      · exact List.mem_append_left _ h
      · exact List.mem_append_right _ (List.mem_map.mpr ⟨(x, r), hr, rfl⟩)
    obtain ⟨l, hl, hid⟩ := List.mem_map.mp (hperm.mp hx)
    exact ⟨l, hl, hid⟩
  · intro ⟨l, hl, hid⟩
    have hx : x ∈ (filterGo now leads).1 ++ (filterGo now leads).2.map Prod.fst :=
      hperm.mpr (List.mem_map.mpr ⟨l, hl, hid⟩)
    rcases List.mem_append.mp hx with h | h
    · exact Or.inl h
    · obtain ⟨p, hp, hpx⟩ := List.mem_map.mp h
      refine Or.inr ⟨p.2, ?_⟩
      have hpeq : p = (x, p.2) := by
        rw [← hpx]
      rwa [hpeq] at hp

/-- C10: an input id with no lead record in the store appears in neither
output of `filterEligibleLeads` (no "Lead not found" entry); the eligible
and skipped lists together cover exactly the input ids that have a lead
record; and `isLeadEligible` instead reports a missing lead as ineligible
with reason "Lead not found". -/
theorem claim_C10 :
    (∀ (now : Int) (store : List Lead) (ids : List String) (x : String),
      (x ∈ (filterEligibleLeads now store ids).1 ∨
        ∃ r, (x, r) ∈ (filterEligibleLeads now store ids).2) ↔
      (x ∈ ids ∧ ∃ l ∈ store, l.id = x)) ∧
    (∀ (now : Int) (store : List Lead) (ids : List String) (x : String),
      (∀ l ∈ store, l.id ≠ x) →
      x ∉ (filterEligibleLeads now store ids).1 ∧
      ∀ r, (x, r) ∉ (filterEligibleLeads now store ids).2) ∧
    (∀ (now : Int) (store : List Lead) (x : String),
      (∀ l ∈ store, l.id ≠ x) →
      isLeadEligible now store x = (false, "Lead not found")) := by
  have hmain : ∀ (now : Int) (store : List Lead) (ids : List String) (x : String),
      (x ∈ (filterEligibleLeads now store ids).1 ∨
        ∃ r, (x, r) ∈ (filterEligibleLeads now store ids).2) ↔
      (x ∈ ids ∧ ∃ l ∈ store, l.id = x) := by
    intro now store ids x
    rw [filterEligibleLeads, filterGo_mem]
    constructor
    · intro ⟨l, hl, hid⟩
      obtain ⟨hst, hc⟩ := List.mem_filter.mp hl
      refine ⟨?_, l, hst, hid⟩
      have := List.mem_of_elem_eq_true hc
      rwa [hid] at this
    · intro ⟨hx, l, hl, hid⟩
      exact ⟨l, List.mem_filter.mpr ⟨hl, List.elem_eq_true_of_mem (hid ▸ hx)⟩, hid⟩
  refine ⟨hmain, ?_, ?_⟩
  · intro now store ids x hnone
    have hno : ¬ (x ∈ ids ∧ ∃ l ∈ store, l.id = x) := by
      rintro ⟨-, l, hl, hid⟩
      exact hnone l hl hid
    have h := (hmain now store ids x).not.mpr hno
    push_neg at h
    exact h
  · intro now store x hnone
    have hfind : store.find? (fun l => l.id = x) = none := by
      rw [List.find?_eq_none]
      intro l hl
      simp [hnone l hl]
    simp [isLeadEligible, hfind]

/-- Witness for C10: id "A" has no record and is silently dropped, id "B"
has a record and is covered, and the single-lead check reports "A" as
"Lead not found". -/
theorem claim_C10_witness :
    (("A" ∈ (filterEligibleLeads 0
        [⟨"B", "b@x.co", false, false, none, 0, none, none, none, 0, 0, none⟩]
        ["A", "B"]).1 ∨
      ∃ r, ("A", r) ∈ (filterEligibleLeads 0
        [⟨"B", "b@x.co", false, false, none, 0, none, none, none, 0, 0, none⟩]
        ["A", "B"]).2) ↔ False) ∧
    ¬ "A" ∈ (filterEligibleLeads 0
        [⟨"B", "b@x.co", false, false, none, 0, none, none, none, 0, 0, none⟩]
        ["A", "B"]).1 ∧
    ("B" ∈ (filterEligibleLeads 0
        [⟨"B", "b@x.co", false, false, none, 0, none, none, none, 0, 0, none⟩]
        ["A", "B"]).1 ∨
      ∃ r, ("B", r) ∈ (filterEligibleLeads 0
        [⟨"B", "b@x.co", false, false, none, 0, none, none, none, 0, 0, none⟩]
        ["A", "B"]).2) ∧
    isLeadEligible 0
        [⟨"B", "b@x.co", false, false, none, 0, none, none, none, 0, 0, none⟩] "A" =
      (false, "Lead not found") := by
  refine ⟨?_, ?_, ?_, ?_⟩
  · rw [claim_C10.1 0 _ _ "A"]
    simp
  · exact (claim_C10.2.1 0
      [⟨"B", "b@x.co", false, false, none, 0, none, none, none, 0, 0, none⟩]
      ["A", "B"] "A" (by intro l hl; simp at hl; simp [hl])).1
  · rw [claim_C10.1 0 _ _ "B"]
    simp
  · exact claim_C10.2.2 0
      [⟨"B", "b@x.co", false, false, none, 0, none, none, none, 0, 0, none⟩]
      "A" (by intro l hl; simp at hl; simp [hl])

set_option maxHeartbeats 1600000 in
/-- C3 (amended): for every lead present in the store, the batch filter and
the single-lead check agree — same ordered rules, skipped with the
first matching rule's reason, in particular "Unsubscribed" when the lead
is both unsubscribed and hard-bounced — EXCEPT that the batch filter has no
24-hour frequency-cap rule; the agreement therefore holds for every lead
on which the frequency cap does not bind (no `lastEmailAt` within 24
hours), and fails otherwise (see the counterexample). -/
theorem claim_C3 (now : Int) (store : List Lead) (l : Lead)
    (hfind : store.find? (fun x => x.id = l.id) = some l)
    (hcap : ∀ t, l.lastEmailAt = some t → 86400000 ≤ now - t) :
    ((isLeadEligible now store l.id).1 = true ↔ filterGo now [l] = ([l.id], [])) ∧
    ((isLeadEligible now store l.id).1 = false →
      ∃ r, filterGo now [l] = ([], [(l.id, r)])) ∧
    (l.unsubscribed = true →
      (isLeadEligible now store l.id).2 = "Unsubscribed" ∧
      filterGo now [l] = ([], [(l.id, "Unsubscribed")])) := by
  rcases hle : l.lastEngagedAt with _ | t1 <;>
    rcases hlm : l.lastEmailAt with _ | t2 <;>
    simp only [isLeadEligible, hfind, filterGo, hle, hlm] <;>
    [skip;
     (have hf : ¬ (now - t2 < 86400000) := not_lt.mpr (hcap t2 hlm));
     skip;
     (have hf : ¬ (now - t2 < 86400000) := not_lt.mpr (hcap t2 hlm))] <;>
    split_ifs <;> simp_all <;> omega

/-- Witness for C3 at a concrete stored lead: an unsubscribed, hard-bounced
lead gets verdict ineligible with reason "Unsubscribed" from both routines;
its frequency cap does not bind (`lastEmailAt = none`). -/
theorem claim_C3_witness :
    ((isLeadEligible 50 [⟨"L1", "e@x.co", true, false, none, 0, some "hard",
        none, none, 0, 0, none⟩] "L1").1 = true ↔
      filterGo 50 [⟨"L1", "e@x.co", true, false, none, 0, some "hard",
        none, none, 0, 0, none⟩] = (["L1"], [])) ∧
    (isLeadEligible 50 [⟨"L1", "e@x.co", true, false, none, 0, some "hard",
        none, none, 0, 0, none⟩] "L1").2 = "Unsubscribed" ∧
    filterGo 50 [⟨"L1", "e@x.co", true, false, none, 0, some "hard",
        none, none, 0, 0, none⟩] = ([], [("L1", "Unsubscribed")]) := by
  have h := claim_C3 50
    [⟨"L1", "e@x.co", true, false, none, 0, some "hard", none, none, 0, 0, none⟩]
    ⟨"L1", "e@x.co", true, false, none, 0, some "hard", none, none, 0, 0, none⟩
    (by decide) (by intro t ht; cases ht)
  exact ⟨h.1, (h.2.2 rfl).1, (h.2.2 rfl).2⟩

/-- Counterexample to C3 as stated: a lead whose only disqualification is a
`lastEmailAt` within 24 hours is ineligible for the single-lead check
(reason "Frequency cap (24h)") but eligible for the batch filter — the
batch filter omits the frequency-cap rule. -/
theorem claim_C3_cex :
    isLeadEligible 0 [⟨"L1", "e@x.co", false, false, none, 0, none, none,
        none, 0, 0, some 0⟩] "L1" = (false, "Frequency cap (24h)") ∧
    filterEligibleLeads 0 [⟨"L1", "e@x.co", false, false, none, 0, none, none,
        none, 0, 0, some 0⟩] ["L1"] = (["L1"], []) := by
  refine ⟨by decide, by decide⟩

end BlokVerify
